import Mathlib

/-!
Shallow embedding of the GeoPulse event domain model and SQLite repository
(JoesMapProject): value objects `Location`, `Magnitude`, `EventType`, the
`Event` aggregate, the `QueryCriteria` builder with its validating setters,
and the repository query compiler (`appendEventFilters`, order-by mapping,
upsert `save`, `FindbyID` row reconstruction).

Modelling conventions:
* Go `float64` values are modelled as exact rationals `ℚ` wherever the code
  only compares and copies them; the proximity-filter computation calls
  `math.Cos`, so that fragment is modelled over `ℝ`.
* Go `time.Time` is modelled as `GoTime`: whole seconds (`Int`) plus
  nanoseconds (`Nat`) past the zero instant (January 1, year 1, 00:00:00 UTC),
  so `IsZero` is `sec = 0 ∧ nsec = 0`. Instants are taken in UTC; the
  RFC3339 text `Save` writes is represented by the whole-second count it
  encodes, and re-parsing it succeeds exactly when that instant's year fits
  the four-digit years of the parse layouts (see `parseTimeFlexible`).
* Go string normalization (`strings.TrimSpace`, `strings.ToLower`) is
  modelled by executable functions over the character list; the predicates
  cover the ASCII fragment (plus NEL/NBSP for spaces) that the fixed
  normalization tables involve.
* Fallible Go constructors returning `(T, error)` become `Except String T`.
-/

namespace GeoPulse

/-- Characters treated as white space when trimming (ASCII white space of
Go's `unicode.IsSpace`, plus NEL and NBSP). -/
def goIsSpace (c : Char) : Bool :=
  c = ' ' || c = '\t' || c = '\n' || c.toNat = 11 || c.toNat = 12 || c = '\r' ||
    c.toNat = 0x85 || c.toNat = 0xA0

/-- `strings.TrimSpace`: drop white space from both ends of the string. -/
def goTrimSpace (s : String) : String :=
  String.mk (((s.data.dropWhile goIsSpace).reverse.dropWhile goIsSpace).reverse)

/-- `strings.ToLower` on one character (ASCII letters; the normalization
tables only contain ASCII keys). -/
def goLowerChar (c : Char) : Char :=
  if 'A' ≤ c ∧ c ≤ 'Z' then Char.ofNat (c.toNat + 32) else c

/-- `strings.ToLower` on a string. -/
def goToLower (s : String) : String :=
  String.mk (s.data.map goLowerChar)

/-- A Go `time.Time` instant: whole seconds and nanoseconds past the zero
time (January 1, year 1, 00:00:00 UTC). -/
structure GoTime where
  sec : Int
  nsec : Nat
  deriving DecidableEq

/-- `time.Time.IsZero`: the zero instant. -/
def GoTime.isZero (t : GoTime) : Bool :=
  t.sec == 0 && t.nsec == 0

/-- `time.Time.Before`: strict chronological order. -/
def GoTime.before (a b : GoTime) : Bool :=
  decide (a.sec < b.sec ∨ (a.sec = b.sec ∧ a.nsec < b.nsec))

/-- `Location` value object (latitude, longitude in degrees; depth in km). -/
structure Location where
  latitude : ℚ
  longitude : ℚ
  depth : ℚ
  deriving DecidableEq

/-- `NewLocation`: validates latitude and longitude ranges; depth is stored
unchecked. -/
def NewLocation (latitude longitude depth : ℚ) : Except String Location :=
  if latitude < -90 ∨ latitude > 90 then
    .error "latitude must be between -90 and 90 degrees"
  else if longitude < -180 ∨ longitude > 180 then
    .error "longitude must be between -180 and 180 degrees"
  else
    .ok { latitude := latitude, longitude := longitude, depth := depth }

/-- The sentinel scale stored for unrecognized magnitude scales. -/
def MagnitudeScaleUnknown : String := "unknown"

/-- The `validMagnitudeScales` table: eight known scale codes mapping to
themselves. -/
def validMagnitudeScales : List (String × String) :=
  [("mw", "mw"), ("ml", "ml"), ("mb", "mb"), ("ms", "ms"),
   ("md", "md"), ("mww", "mww"), ("mwc", "mwc"), ("mwr", "mwr")]

/-- `Magnitude` value object. -/
structure Magnitude where
  value : ℚ
  scale : String
  deriving DecidableEq

/-- `NewMagnitude`: validates the value range, normalizes the scale through
the known-scale table, defaulting to `"unknown"`. -/
def NewMagnitude (value : ℚ) (scale : String) : Except String Magnitude :=
  if value < -1 ∨ value > 10 then
    .error "magnitude must be between -1.0 and 10.0"
  else
    let normalizeScale := goToLower (goTrimSpace scale)
    let knownScale := (List.lookup normalizeScale validMagnitudeScales).getD MagnitudeScaleUnknown
    .ok { value := value, scale := knownScale }

/-- The default category stored for unrecognized event types. -/
def EventTypeOther : String := "other"

/-- The `validEventTypes` normalization table mapping USGS inputs to
canonical GeoPulse categories. -/
def validEventTypes : List (String × String) :=
  [("earthquake", "earthquake"), ("quarry blast", "quarry blast"),
   ("explosion", "explosion"), ("other", "other"),
   ("quarry", "quarry blast"), ("landslide", "landslide"),
   ("rockburst", "other"), ("chemical explosion", "explosion"),
   ("nuclear explosion", "explosion"), ("ice quake", "ice quake"),
   ("volcanic eruption", "volcanic eruption")]

/-- `EventType` value object (called `Type` in `type.go` and `EventType` in
`event_type.go`; the two Go definitions are identical). -/
structure EventType where
  value : String
  deriving DecidableEq

/-- `NewEventType` (= `NewType`): rejects the empty string before any
trimming, otherwise trims, lowercases, and looks the input up in the
normalization table, defaulting to `"other"`. -/
def NewEventType (value : String) : Except String EventType :=
  if value = "" then
    .error "value type cannot be empty"
  else
    let normalizeValue := goToLower (goTrimSpace value)
    let knownValue := (List.lookup normalizeValue validEventTypes).getD EventTypeOther
    .ok { value := knownValue }

/-- The `Event` aggregate (fields as in the live `event` package, which has
`description` and `url`). -/
structure Event where
  id : String
  place : String
  status : String
  description : String
  url : String
  location : Location
  magnitude : Magnitude
  eventType : EventType
  time : GoTime
  updated : GoTime
  deriving DecidableEq

/-- `NewEvent`: validates id non-empty, time non-zero, status non-empty.
`now` is the `time.Now()` value written into the `updated` field, made an
explicit argument. -/
def NewEvent (id : String) (location : Location) (place : String)
    (magnitude : Magnitude) (eventType : EventType) (eventTime : GoTime)
    (status description url : String) (now : GoTime) : Except String Event :=
  if id = "" then
    .error "event ID cannot be empty"
  else if eventTime.isZero then
    .error "event time cannot be zero"
  else if status = "" then
    .error "event status cannot be empty"
  else
    .ok { id := id, location := location, place := place, magnitude := magnitude,
          eventType := eventType, time := eventTime, updated := now,
          status := status, description := description, url := url }

/-- `Event.UpdateStatus`: the Go method builds a fresh struct copying every
field except `status` and `updated` and never writes through the receiver,
so the embedding is a pure function and the original value is unchanged by
construction. -/
def Event.UpdateStatus (e : Event) (newStatus : String) (updatedTime : GoTime) : Event :=
  { id := e.id, location := e.location, place := e.place,
    magnitude := e.magnitude, eventType := e.eventType, time := e.time,
    status := newStatus, updated := updatedTime,
    description := e.description, url := e.url }

/-- `QueryCriteria`: the filter specification record. -/
structure QueryCriteria where
  minMagnitude : Option ℚ
  maxMagnitude : Option ℚ
  startTime : Option GoTime
  endTime : Option GoTime
  location : Option Location
  radiusKm : Option ℚ
  eventTypes : List EventType
  statuses : List String
  orderBy : String
  limit : Int
  offset : Int
  ascending : Bool
  deriving DecidableEq

/-- `NewQueryCriteria`: defaults limit 100, offset 0, order by time
descending; every filter unset. -/
def NewQueryCriteria : QueryCriteria :=
  { minMagnitude := none, maxMagnitude := none, startTime := none,
    endTime := none, location := none, radiusKm := none, eventTypes := [],
    statuses := [], orderBy := "time", limit := 100, offset := 0,
    ascending := false }

/-- A Go setter `func (c *QueryCriteria) With...(...) error` becomes a pure
function returning the error (if any) together with the post-call state of
the receiver; the Go methods return before any assignment on failure. -/
def QueryCriteria.WithMagnitudeRange (c : QueryCriteria) (minMag maxMag : ℚ) :
    Option String × QueryCriteria :=
  if minMag < -1 ∨ maxMag > 10 then
    (some "invalid magnitude range: minMag must be >= -1.0 and maxMag must be <= 10.0", c)
  else if maxMag < -1 ∨ maxMag > 10 then
    (some "invalid magnitude range: maxMag must be >= -1.0 and <= 10.0", c)
  else if maxMag < minMag then
    (some "invalid magnitude range: maxMag cannot be less than minMag", c)
  else
    (none, { c with minMagnitude := some minMag, maxMagnitude := some maxMag })

/-- `WithTimeRange`: rejects an end time strictly before the start time. -/
def QueryCriteria.WithTimeRange (c : QueryCriteria) (start endT : GoTime) :
    Option String × QueryCriteria :=
  if endT.before start then
    (some "invalid time range: end time cannot be before start time", c)
  else
    (none, { c with startTime := some start, endTime := some endT })

/-- `WithProximity`: radius must lie in [0, 20000] km. -/
def QueryCriteria.WithProximity (c : QueryCriteria) (location : Location) (radiusKm : ℚ) :
    Option String × QueryCriteria :=
  if radiusKm < 0 then
    (some "radiusKm must be non-negative", c)
  else if radiusKm > 20000 then
    (some "radiusKm must not exceed 20000 km", c)
  else
    (none, { c with location := some location, radiusKm := some radiusKm })

/-- `WithEventTypes`: at least one type required. -/
def QueryCriteria.WithEventTypes (c : QueryCriteria) (types : List EventType) :
    Option String × QueryCriteria :=
  if types.length = 0 then
    (some "at least one event type must be specified", c)
  else
    (none, { c with eventTypes := types })

/-- `WithStatuses`: at least one status required. -/
def QueryCriteria.WithStatuses (c : QueryCriteria) (statuses : List String) :
    Option String × QueryCriteria :=
  if statuses.length = 0 then
    (some "at least one status must be specified", c)
  else
    (none, { c with statuses := statuses })

/-- `WithPagination`: limit in [0, 1000], offset non-negative. -/
def QueryCriteria.WithPagination (c : QueryCriteria) (limit offset : Int) :
    Option String × QueryCriteria :=
  if limit < 0 then
    (some "limit must be non-negative", c)
  else if limit > 1000 then
    (some "limit must not exceed 1000", c)
  else if offset < 0 then
    (some "offset must be non-negative", c)
  else
    (none, { c with limit := limit, offset := offset })

/-- `WithSort`: the order-by field must be in the fixed allow-list. -/
def QueryCriteria.WithSort (c : QueryCriteria) (orderBy : String) (ascending : Bool) :
    Option String × QueryCriteria :=
  if orderBy ∈ (["time", "magnitude", "depth", "place"] : List String) then
    (none, { c with orderBy := orderBy, ascending := ascending })
  else
    (some "invalid orderBy field", c)

/-- One row of the `events` table. The `event_time` TEXT column always holds
the RFC3339 text written by `Save`; that text is represented by the count of
whole seconds it encodes (the text has no fractional-second digits). -/
structure EventsRow where
  id : String
  event_type : String
  magnitude_value : ℚ
  magnitude_scale : String
  latitude : ℚ
  longitude : ℚ
  depth_km : ℚ
  event_time : Int
  location_name : String
  status : String
  description : String
  url : String
  updated_at : Int
  deriving DecidableEq

/-- The row bound by `Save` for an event: the twelve bound parameters plus
the server-side `CURRENT_TIMESTAMP` (`now`) for `updated_at`.
`event.Time().Format(time.RFC3339)` keeps the whole seconds and drops
nanoseconds. -/
def rowOfEvent (now : Int) (e : Event) : EventsRow :=
  { id := e.id, event_type := e.eventType.value,
    magnitude_value := e.magnitude.value, magnitude_scale := e.magnitude.scale,
    latitude := e.location.latitude, longitude := e.location.longitude,
    depth_km := e.location.depth, event_time := e.time.sec,
    location_name := e.place, status := e.status,
    description := e.description, url := e.url, updated_at := now }

/-- `Save`: `INSERT ... ON CONFLICT(id) DO UPDATE SET` every field. On a
primary-key conflict every conflicting row is updated in place (the schema
keeps ids unique, so at most one row matches); otherwise the row is
appended. The upsert itself never fails, matching the conflict clause. -/
def save (now : Int) (e : Event) (store : List EventsRow) : List EventsRow :=
  if store.any (fun r => r.id == e.id) then
    store.map (fun r => if r.id == e.id then rowOfEvent now e else r)
  else
    store ++ [rowOfEvent now e]

/-- First whole second the RFC3339 layouts can re-parse: the text `Save`
writes carries a zero-padded four-digit year, and the earliest such year is
0000, a proleptic-Gregorian leap year ending at the zero instant; its start
is 366 days before it: -366 * 86400 (Unix timestamp -62167219200). -/
def rfc3339MinSec : Int := -31622400

/-- Last whole second the RFC3339 layouts can re-parse: the final second of
year 9999. Years 1..9999 hold 9999 * 365 + 2424 = 3652059 days (2499
multiples of 4, minus 99 multiples of 100, plus 24 multiples of 400), so
this is 3652059 * 86400 - 1 (Unix timestamp 253402300799). -/
def rfc3339MaxSec : Int := 315537897599

/-- `parseTimeFlexible` applied to the stored `event_time` text. The text
written by `Save` encodes whole seconds; when the instant's year lies in
0000-9999 its year is four zero-padded digits, the first format attempt
(RFC3339) succeeds and recovers exactly those seconds with zero
nanoseconds. Outside that range `Format` emits a five-or-more-digit or
negative year, every layout in the Go function reads exactly four year
digits, all five attempts fail, and the function returns its error. -/
def parseTimeFlexible (stored : Int) : Except String GoTime :=
  if rfc3339MinSec ≤ stored ∧ stored ≤ rfc3339MaxSec then
    .ok { sec := stored, nsec := 0 }
  else
    .error "unable to parse time"

/-- `reconstructEventFromScanner`: re-validates every column through the
value-object constructors, in the order of the Go function, and fails the
read on the first error. `now` is the `time.Now()` inside `NewEvent`. -/
def reconstructEventFromScanner (now : GoTime) (r : EventsRow) : Except String Event := do
  let location ← NewLocation r.latitude r.longitude r.depth_km
  let magnitude ← NewMagnitude r.magnitude_value r.magnitude_scale
  let eventTimeParsed ← parseTimeFlexible r.event_time
  let eventTypeObj ← NewEventType r.event_type
  NewEvent r.id location r.location_name magnitude eventTypeObj eventTimeParsed
    r.status r.description r.url now

/-- `FindbyID`: point lookup returning `sql.ErrNoRows` when absent. -/
def FindbyID (now : GoTime) (store : List EventsRow) (id : String) : Except String Event :=
  match store.find? (fun r => r.id == id) with
  | none => .error "sql: no rows in result set"
  | some r => reconstructEventFromScanner now r

/-- `Δlat = radius_km / 111.0` from the proximity filter. -/
noncomputable def deltaLatOf (radiusKm : ℝ) : ℝ := radiusKm / 111

/-- `cosLat := math.Cos(lat * math.Pi / 180.0)` from the proximity filter. -/
noncomputable def cosLatOf (lat : ℝ) : ℝ := Real.cos (lat * Real.pi / 180)

/-- `deltaLon`: `180.0` unless `|cosLat| > 1e-6`, in which case
`radius_km / (111.0 * cosLat)`. -/
noncomputable def deltaLonOf (lat radiusKm : ℝ) : ℝ :=
  if |cosLatOf lat| > 1e-6 then radiusKm / (111 * cosLatOf lat) else 180

/-- One `AND <condition>` clause appended by `appendEventFilters`; the
constructor records the column the Go code writes and the bound values.
Note the `Statuses` filter is compiled against the `description` column in
the source (`" AND description IN ("`), which `descIn` mirrors. -/
inductive Filt where
  | magGe (v : ℚ)
  | magLe (v : ℚ)
  | timeGe (t : GoTime)
  | timeLe (t : GoTime)
  | typeIn (vs : List String)
  | descIn (vs : List String)
  | latBetween (lo hi : ℝ)
  | lonBetween (lo hi : ℝ)

/-- The SQL text fragment each clause contributes, with one positional `?`
placeholder per bound value. -/
def Filt.fragment : Filt → String
  | .magGe _ => " AND magnitude_value >= ?"
  | .magLe _ => " AND magnitude_value <= ?"
  | .timeGe _ => " AND event_time >= ?"
  | .timeLe _ => " AND event_time <= ?"
  | .typeIn vs => " AND event_type IN (" ++ String.intercalate ", " (vs.map fun _ => "?") ++ ")"
  | .descIn vs => " AND description IN (" ++ String.intercalate ", " (vs.map fun _ => "?") ++ ")"
  | .latBetween _ _ => " AND latitude BETWEEN ? AND ?"
  | .lonBetween _ _ => " AND longitude BETWEEN ? AND ?"

/-- `appendEventFilters`: the clauses appended for the criteria fields that
are set, in source order. -/
noncomputable def appendEventFilters (c : QueryCriteria) : List Filt :=
  (match c.minMagnitude with | some v => [Filt.magGe v] | none => []) ++
  (match c.maxMagnitude with | some v => [Filt.magLe v] | none => []) ++
  (match c.startTime with | some t => [Filt.timeGe t] | none => []) ++
  (match c.endTime with | some t => [Filt.timeLe t] | none => []) ++
  (if c.eventTypes.length > 0 then [Filt.typeIn (c.eventTypes.map EventType.value)] else []) ++
  (if c.statuses.length > 0 then [Filt.descIn c.statuses] else []) ++
  (match c.location, c.radiusKm with
   | some loc, some radiusKm =>
     let lat : ℝ := loc.latitude
     let lon : ℝ := loc.longitude
     let r : ℝ := radiusKm
     [Filt.latBetween (lat - deltaLatOf r) (lat + deltaLatOf r),
      Filt.lonBetween (lon - deltaLonOf lat r) (lon + deltaLonOf lat r)]
   | _, _ => [])

/-- The truth value of one compiled clause on a row, under SQL evaluation
of the emitted predicate (time comparisons idealized chronologically). -/
def evalFilt : Filt → EventsRow → Prop
  | .magGe v, r => v ≤ r.magnitude_value
  | .magLe v, r => r.magnitude_value ≤ v
  | .timeGe t, r => t.sec ≤ r.event_time
  | .timeLe t, r => r.event_time ≤ t.sec
  | .typeIn vs, r => r.event_type ∈ vs
  | .descIn vs, r => r.description ∈ vs
  | .latBetween lo hi, r => lo ≤ (r.latitude : ℝ) ∧ (r.latitude : ℝ) ≤ hi
  | .lonBetween lo hi, r => lo ≤ (r.longitude : ℝ) ∧ (r.longitude : ℝ) ≤ hi

/-- A row passes the WHERE clause compiled by `FindAll`/`Count` iff it
satisfies every appended clause. -/
def rowSatisfiesFilters (c : QueryCriteria) (r : EventsRow) : Prop :=
  ∀ f ∈ appendEventFilters c, evalFilt f r

/-- The ORDER BY column chosen by `FindAll`: initialized to `event_time`
and switched only on the four allow-listed values. -/
def orderByColumn (orderBy : String) : String :=
  match orderBy with
  | "magnitude" => "magnitude_value"
  | "depth" => "depth_km"
  | "place" => "location_name"
  | "time" => "event_time"
  | _ => "event_time"

/-- The ORDER BY fragment concatenated into the query text by `FindAll`. -/
def orderClause (orderBy : String) (ascending : Bool) : String :=
  " ORDER BY " ++ orderByColumn orderBy ++ (if ascending then " ASC" else " DESC")

/-- Modelled from the spec: the "true great-circle distance" between two
points given in degrees, on a sphere of mean Earth radius 6371 km (standard
spherical law of cosines); the repository has no such function, only the
bounding-box approximation. -/
noncomputable def gcDist (lat1 lon1 lat2 lon2 : ℝ) : ℝ :=
  6371 * Real.arccos
    (Real.sin (lat1 * Real.pi / 180) * Real.sin (lat2 * Real.pi / 180) +
     Real.cos (lat1 * Real.pi / 180) * Real.cos (lat2 * Real.pi / 180) *
       Real.cos ((lon2 - lon1) * Real.pi / 180))

/-! ### Invariants characterizing the images of the value-object constructors -/

/-- Canonical magnitude scale codes: the values `NewMagnitude` can store. -/
def canonicalScales : List String :=
  ["mw", "ml", "mb", "ms", "md", "mww", "mwc", "mwr", "unknown"]

/-- A magnitude as produced by `NewMagnitude`. -/
def Magnitude.WF (m : Magnitude) : Prop :=
  -1 ≤ m.value ∧ m.value ≤ 10 ∧ m.scale ∈ canonicalScales

/-- Canonical event-type categories: the values `NewEventType` can store. -/
def canonicalCategories : List String :=
  ["earthquake", "quarry blast", "explosion", "other", "landslide",
   "volcanic eruption", "ice quake"]

/-- An event type as produced by `NewEventType`. -/
def EventType.WF (t : EventType) : Prop := t.value ∈ canonicalCategories

/-- A location as produced by `NewLocation`. -/
def Location.WF (l : Location) : Prop :=
  -90 ≤ l.latitude ∧ l.latitude ≤ 90 ∧ -180 ≤ l.longitude ∧ l.longitude ≤ 180

/-- An event as produced by `NewEvent` from constructor-built value objects. -/
def Event.WF (e : Event) : Prop :=
  e.id ≠ "" ∧ e.time.isZero = false ∧ e.status ≠ "" ∧
  e.location.WF ∧ e.magnitude.WF ∧ e.eventType.WF

theorem lookup_mem_snd {k : String} : ∀ (l : List (String × String)) {v : String},
    List.lookup k l = some v → v ∈ l.map Prod.snd
  | [], v, h => by simp [List.lookup] at h
  | (a, b) :: l, v, h => by
    simp only [List.lookup] at h
    cases hk : k == a with
    | true => rw [hk] at h; cases h; exact List.mem_cons_self _ _
    | false =>
      rw [hk] at h
      exact List.mem_cons_of_mem _ (lookup_mem_snd l h)

theorem wf_of_newLocation {a b d : ℚ} {l : Location}
    (h : NewLocation a b d = .ok l) : l.WF := by
  unfold NewLocation at h
  by_cases h1 : a < -90 ∨ a > 90
  · rw [if_pos h1] at h; cases h
  · rw [if_neg h1] at h
    by_cases h2 : b < -180 ∨ b > 180
    · rw [if_pos h2] at h; cases h
    · rw [if_neg h2] at h
      cases h
      push_neg at h1 h2
      exact ⟨h1.1, h1.2, h2.1, h2.2⟩

theorem wf_of_newMagnitude {v : ℚ} {s : String} {m : Magnitude}
    (h : NewMagnitude v s = .ok m) : m.WF := by
  unfold NewMagnitude at h
  by_cases h1 : v < -1 ∨ v > 10
  · rw [if_pos h1] at h; cases h
  · rw [if_neg h1] at h
    cases h
    push_neg at h1
    refine ⟨h1.1, h1.2, ?_⟩
    rcases ho : List.lookup (goToLower (goTrimSpace s)) validMagnitudeScales with _ | x
    · simp only [ho, Option.getD_none]
      decide
    · simp only [ho, Option.getD_some]
      have hm := lookup_mem_snd _ ho
      revert hm
      have : ∀ y ∈ validMagnitudeScales.map Prod.snd, y ∈ canonicalScales := by decide
      exact this x

theorem wf_of_newEventType {s : String} {t : EventType}
    (h : NewEventType s = .ok t) : t.WF := by
  unfold NewEventType at h
  by_cases h1 : s = ""
  · rw [if_pos h1] at h; cases h
  · rw [if_neg h1] at h
    cases h
    show (List.lookup (goToLower (goTrimSpace s)) validEventTypes).getD EventTypeOther ∈ canonicalCategories
    rcases ho : List.lookup (goToLower (goTrimSpace s)) validEventTypes with _ | x
    · simp only [Option.getD_none]
      decide
    · simp only [Option.getD_some]
      have hm := lookup_mem_snd _ ho
      revert hm
      have : ∀ y ∈ validEventTypes.map Prod.snd, y ∈ canonicalCategories := by decide
      exact this x

theorem scale_norm_fixed : ∀ s ∈ canonicalScales,
    (List.lookup (goToLower (goTrimSpace s)) validMagnitudeScales).getD MagnitudeScaleUnknown = s := by
  decide

theorem category_norm_fixed : ∀ s ∈ canonicalCategories,
    (List.lookup (goToLower (goTrimSpace s)) validEventTypes).getD EventTypeOther = s := by
  decide

theorem category_ne_empty : ∀ s ∈ canonicalCategories, s ≠ "" := by decide

theorem newLocation_of_wf {l : Location} (h : l.WF) :
    NewLocation l.latitude l.longitude l.depth = .ok l := by
  obtain ⟨h1, h2, h3, h4⟩ := h
  unfold NewLocation
  rw [if_neg (by push_neg; exact ⟨h1, h2⟩), if_neg (by push_neg; exact ⟨h3, h4⟩)]

theorem newMagnitude_of_wf {m : Magnitude} (h : m.WF) :
    NewMagnitude m.value m.scale = .ok m := by
  obtain ⟨h1, h2, h3⟩ := h
  unfold NewMagnitude
  rw [if_neg (by push_neg; exact ⟨h1, h2⟩)]
  show Except.ok
    ⟨m.value, (List.lookup (goToLower (goTrimSpace m.scale)) validMagnitudeScales).getD MagnitudeScaleUnknown⟩
      = Except.ok m
  rw [scale_norm_fixed m.scale h3]

theorem newEventType_of_wf {t : EventType} (h : t.WF) :
    NewEventType t.value = .ok t := by
  unfold NewEventType
  rw [if_neg (category_ne_empty t.value h)]
  show Except.ok
    ⟨(List.lookup (goToLower (goTrimSpace t.value)) validEventTypes).getD EventTypeOther⟩
      = Except.ok t
  rw [category_norm_fixed t.value h]

/-! ### Store lemmas for `save` -/

theorem rowOfEvent_id (n : Int) (e : Event) : (rowOfEvent n e).id = e.id := rfl

theorem find?_replace (n : Int) (e : Event) : ∀ store : List EventsRow,
    store.any (fun r => r.id == e.id) = true →
    (store.map fun r => if r.id == e.id then rowOfEvent n e else r).find?
        (fun r => r.id == e.id) = some (rowOfEvent n e)
  | [], h => by simp at h
  | r :: rest, h => by
    by_cases hr : (r.id == e.id) = true
    · simp only [List.map_cons, if_pos hr, List.find?_cons]
      simp [rowOfEvent_id]
    · simp only [List.map_cons, if_neg hr, List.find?_cons]
      rw [Bool.not_eq_true] at hr
      rw [hr]
      exact find?_replace n e rest (by simpa [hr] using h)

theorem find?_save (n : Int) (e : Event) (store : List EventsRow) :
    (save n e store).find? (fun r => r.id == e.id) = some (rowOfEvent n e) := by
  unfold save
  split_ifs with h
  · exact find?_replace n e store h
  · rw [Bool.not_eq_true] at h
    induction store with
    | nil => simp [List.find?, rowOfEvent_id]
    | cons r rest ih =>
      simp only [List.any_cons, Bool.or_eq_false_iff] at h
      simp only [List.cons_append, List.find?_cons, h.1]
      exact ih h.2

theorem ids_replace (n : Int) (e : Event) (store : List EventsRow) :
    (store.map fun r => if r.id == e.id then rowOfEvent n e else r).map EventsRow.id
      = store.map EventsRow.id := by
  rw [List.map_map]
  refine List.map_congr_left fun r _ => ?_
  by_cases hr : (r.id == e.id) = true
  · simp only [Function.comp_apply, if_pos hr, rowOfEvent_id]
    exact (eq_of_beq hr).symm
  · simp only [Function.comp_apply, if_neg hr]

theorem length_save_of_mem (n : Int) (e : Event) (store : List EventsRow)
    (h : store.any (fun r => r.id == e.id) = true) :
    (save n e store).length = store.length := by
  unfold save
  rw [if_pos h, List.length_map]

theorem any_save_self (n : Int) (e : Event) (store : List EventsRow) :
    (save n e store).any (fun r => r.id == e.id) = true := by
  unfold save
  split_ifs with h
  · rw [List.any_eq_true] at h ⊢
    obtain ⟨r, hr, hid⟩ := h
    exact ⟨rowOfEvent n e, List.mem_map.2 ⟨r, hr, by rw [if_pos hid]⟩, by simp [rowOfEvent_id]⟩
  · simp [rowOfEvent_id]

theorem nodup_ids_save (n : Int) (e : Event) (store : List EventsRow)
    (h : (store.map EventsRow.id).Nodup) :
    ((save n e store).map EventsRow.id).Nodup := by
  unfold save
  split_ifs with hm
  · rw [ids_replace]; exact h
  · rw [List.map_append, List.nodup_append]
    refine ⟨h, by simp, ?_⟩
    intro a ha hb
    simp only [List.map_cons, List.map_nil, List.mem_singleton, rowOfEvent_id] at hb
    subst hb
    rw [Bool.not_eq_true, List.any_eq_false] at hm
    obtain ⟨r, hr, hid⟩ := List.mem_map.1 ha
    exact hm r hr (by simp [hid])

theorem filter_id_eq_nil (a : String) (store : List EventsRow)
    (h : ∀ r ∈ store, r.id ≠ a) :
    store.filter (fun r => r.id == a) = [] := by
  rw [List.filter_eq_nil_iff]
  intro r hr
  simpa using h r hr

theorem filter_replace_of_nodup (n : Int) (e : Event) : ∀ store : List EventsRow,
    (store.map EventsRow.id).Nodup →
    store.any (fun r => r.id == e.id) = true →
    (store.map fun r => if r.id == e.id then rowOfEvent n e else r).filter
        (fun r => r.id == e.id) = [rowOfEvent n e]
  | [], _, hm => by simp at hm
  | r :: rest, hnd, hm => by
    simp only [List.map_cons, List.nodup_cons] at hnd
    by_cases hr : (r.id == e.id) = true
    · simp only [List.map_cons, if_pos hr]
      rw [List.filter_cons_of_pos (by simp [rowOfEvent_id])]
      have hrest : (rest.map fun x => if x.id == e.id then rowOfEvent n e else x).filter
          (fun x => x.id == e.id) = [] := by
        refine filter_id_eq_nil e.id _ fun x hx => ?_
        obtain ⟨y, hy, hxy⟩ := List.mem_map.1 hx
        have hyne : y.id ≠ r.id := fun hc => hnd.1 (hc ▸ List.mem_map_of_mem EventsRow.id hy)
        have hyne2 : (y.id == e.id) = false := by
          rw [beq_eq_false_iff_ne]
          intro hc
          exact hyne (hc.trans (eq_of_beq hr).symm)
        rw [← hxy, if_neg (by simp [hyne2])]
        intro hc
        exact hyne (hc.trans (eq_of_beq hr).symm)
      rw [hrest]
    · simp only [List.map_cons, if_neg hr]
      rw [List.filter_cons_of_neg (by simpa using hr)]
      exact filter_replace_of_nodup n e rest hnd.2 (by simpa [hr] using hm)

/-- C6: `NewLocation` succeeds and stores all three values unchanged for every
in-range latitude/longitude and arbitrary depth, and errors exactly on an
out-of-range latitude or longitude; depth is never validated. -/
theorem claim_C6_newLocation (lat lon depth : ℚ) :
    ((-90 ≤ lat ∧ lat ≤ 90 ∧ -180 ≤ lon ∧ lon ≤ 180) →
      NewLocation lat lon depth = .ok ⟨lat, lon, depth⟩) ∧
    ((lat < -90 ∨ lat > 90 ∨ lon < -180 ∨ lon > 180) →
      ∃ msg, NewLocation lat lon depth = .error msg) := by
  constructor
  · rintro ⟨h1, h2, h3, h4⟩
    unfold NewLocation
    rw [if_neg (by push_neg; exact ⟨h1, h2⟩), if_neg (by push_neg; exact ⟨h3, h4⟩)]
  · intro h
    unfold NewLocation
    by_cases hlat : lat < -90 ∨ lat > 90
    · rw [if_pos hlat]; exact ⟨_, rfl⟩
    · have hlon : lon < -180 ∨ lon > 180 := by
        rcases h with h | h | h | h
        · exact absurd (Or.inl h) hlat
        · exact absurd (Or.inr h) hlat
        · exact Or.inl h
        · exact Or.inr h
      rw [if_neg hlat, if_pos hlon]
      exact ⟨_, rfl⟩

/-- Witness for C6 at concrete inputs (depth 9999 is far outside [-10, 1000]). -/
theorem claim_C6_witness :
    (NewLocation 34 (-118) 9999 = .ok ⟨34, -118, 9999⟩) ∧
    (∃ msg, NewLocation 91 0 0 = .error msg) :=
  ⟨(claim_C6_newLocation 34 (-118) 9999).1 (by norm_num),
   (claim_C6_newLocation 91 0 0).2 (by norm_num)⟩

/-- C7: the event-type constructor errors exactly on the empty input; every
non-empty input stores the trim/lowercase table lookup with default "other"
(so "quarry" gives "quarry blast", "meteor strike" and a whitespace-only
string give "other"). -/
theorem claim_C7_newEventType :
    NewEventType "" = .error "value type cannot be empty" ∧
    (∀ s : String, s ≠ "" →
      NewEventType s =
        .ok ⟨(List.lookup (goToLower (goTrimSpace s)) validEventTypes).getD EventTypeOther⟩) ∧
    NewEventType "quarry" = .ok ⟨"quarry blast"⟩ ∧
    NewEventType "meteor strike" = .ok ⟨"other"⟩ ∧
    NewEventType "   " = .ok ⟨"other"⟩ := by
  refine ⟨rfl, ?_, rfl, rfl, rfl⟩
  intro s hs
  unfold NewEventType
  rw [if_neg hs]

/-- Witness for C7 at a concrete non-empty input. -/
theorem claim_C7_witness :
    ("mainshock" : String) ≠ "" ∧
    NewEventType "mainshock" =
      .ok ⟨(List.lookup (goToLower (goTrimSpace "mainshock")) validEventTypes).getD EventTypeOther⟩ :=
  ⟨by decide, claim_C7_newEventType.2.1 "mainshock" (by decide)⟩

/-- C8: `UpdateStatus` returns an Event with the new status and updated time
and every other field copied from the receiver; the embedding is a pure
function because the Go method only constructs a fresh struct, so the
original Event is unchanged. -/
theorem claim_C8_updateStatus (e : Event) (s : String) (t : GoTime) :
    (e.UpdateStatus s t).status = s ∧ (e.UpdateStatus s t).updated = t ∧
    (e.UpdateStatus s t).id = e.id ∧ (e.UpdateStatus s t).location = e.location ∧
    (e.UpdateStatus s t).place = e.place ∧ (e.UpdateStatus s t).magnitude = e.magnitude ∧
    (e.UpdateStatus s t).eventType = e.eventType ∧ (e.UpdateStatus s t).time = e.time ∧
    (e.UpdateStatus s t).description = e.description ∧ (e.UpdateStatus s t).url = e.url :=
  ⟨rfl, rfl, rfl, rfl, rfl, rfl, rfl, rfl, rfl, rfl⟩

/-- C9: `UpdateStatus` performs no validation: the empty status string is
accepted and yields an Event whose status violates the non-empty invariant
that `NewEvent` enforces (NewEvent with an empty status always errors). -/
theorem claim_C9_updateStatus_unchecked :
    (∀ (e : Event) (t : GoTime), (e.UpdateStatus "" t).status = "") ∧
    (∀ (id : String) (loc : Location) (place : String) (mag : Magnitude)
        (ty : EventType) (tm : GoTime) (description url : String) (now : GoTime),
      ∃ msg, NewEvent id loc place mag ty tm "" description url now = .error msg) := by
  refine ⟨fun e t => rfl, ?_⟩
  intro id loc place mag ty tm description url now
  unfold NewEvent
  split_ifs with a b c <;> first | exact ⟨_, rfl⟩ | exact absurd rfl c

/-- C10: the ORDER BY column compiled by `FindAll` is always one of the four
fixed physical column names; any `OrderBy` value outside the allow-list
falls back to `event_time`, and the whole ORDER BY fragment is one of eight
fixed strings, so the caller string is never concatenated into the SQL. -/
theorem claim_C10_orderBy (s : String) :
    orderByColumn s ∈ (["event_time", "magnitude_value", "depth_km", "location_name"] : List String) ∧
    (s ∉ (["time", "magnitude", "depth", "place"] : List String) →
      orderByColumn s = "event_time") ∧
    (∀ asc : Bool, orderClause s asc ∈
      ([" ORDER BY event_time ASC", " ORDER BY event_time DESC",
        " ORDER BY magnitude_value ASC", " ORDER BY magnitude_value DESC",
        " ORDER BY depth_km ASC", " ORDER BY depth_km DESC",
        " ORDER BY location_name ASC", " ORDER BY location_name DESC"] : List String)) := by
  have hcol : orderByColumn s ∈
      (["event_time", "magnitude_value", "depth_km", "location_name"] : List String) := by
    unfold orderByColumn
    split <;> simp
  refine ⟨hcol, ?_, ?_⟩
  · intro hs
    unfold orderByColumn
    split <;> simp_all
  · intro asc
    unfold orderClause
    simp only [List.mem_cons, List.not_mem_nil, or_false] at hcol
    cases asc <;> rcases hcol with h | h | h | h <;> rw [h] <;> decide
/-- Witness for C10 at a hostile concrete order-by string. -/
theorem claim_C10_witness :
    ("; DROP TABLE events; --" : String) ∉ (["time", "magnitude", "depth", "place"] : List String) ∧
    orderByColumn "; DROP TABLE events; --" = "event_time" :=
  ⟨by decide, (claim_C10_orderBy "; DROP TABLE events; --").2.1 (by decide)⟩

theorem c5_magnitude (c : QueryCriteria) (mn mx : ℚ) :
    ((-1 ≤ mn ∧ mn ≤ 10 ∧ -1 ≤ mx ∧ mx ≤ 10 ∧ mn ≤ mx) →
      c.WithMagnitudeRange mn mx =
        (none, { c with minMagnitude := some mn, maxMagnitude := some mx })) ∧
    (¬(-1 ≤ mn ∧ mn ≤ 10 ∧ -1 ≤ mx ∧ mx ≤ 10 ∧ mn ≤ mx) →
      (c.WithMagnitudeRange mn mx).1.isSome = true ∧ (c.WithMagnitudeRange mn mx).2 = c) := by
  unfold QueryCriteria.WithMagnitudeRange
  constructor
  · rintro ⟨h1, h2, h3, h4, h5⟩
    rw [if_neg (by push_neg; exact ⟨h1, h4⟩), if_neg (by push_neg; exact ⟨h3, h4⟩),
        if_neg (by push_neg; exact h5)]
  · intro hv
    split_ifs with a b d
    · exact ⟨rfl, rfl⟩
    · exact ⟨rfl, rfl⟩
    · exact ⟨rfl, rfl⟩
    · exfalso
      push_neg at a b d
      exact hv ⟨a.1, le_trans d a.2, b.1, a.2, d⟩

theorem c5_time (c : QueryCriteria) (start endT : GoTime) :
    (endT.before start = false →
      c.WithTimeRange start endT =
        (none, { c with startTime := some start, endTime := some endT })) ∧
    (endT.before start = true →
      (c.WithTimeRange start endT).1.isSome = true ∧ (c.WithTimeRange start endT).2 = c) := by
  unfold QueryCriteria.WithTimeRange
  constructor
  · intro h; rw [if_neg (by simp [h])]
  · intro h; rw [if_pos h]; exact ⟨rfl, rfl⟩

theorem c5_proximity (c : QueryCriteria) (loc : Location) (r : ℚ) :
    ((0 ≤ r ∧ r ≤ 20000) →
      c.WithProximity loc r = (none, { c with location := some loc, radiusKm := some r })) ∧
    (¬(0 ≤ r ∧ r ≤ 20000) →
      (c.WithProximity loc r).1.isSome = true ∧ (c.WithProximity loc r).2 = c) := by
  unfold QueryCriteria.WithProximity
  constructor
  · rintro ⟨h1, h2⟩
    rw [if_neg (by push_neg; exact h1), if_neg (by push_neg; exact h2)]
  · intro hv
    split_ifs with a b
    · exact ⟨rfl, rfl⟩
    · exact ⟨rfl, rfl⟩
    · exfalso; push_neg at a b; exact hv ⟨a, b⟩

theorem c5_types (c : QueryCriteria) (ts : List EventType) :
    (ts ≠ [] → c.WithEventTypes ts = (none, { c with eventTypes := ts })) ∧
    (ts = [] → (c.WithEventTypes ts).1.isSome = true ∧ (c.WithEventTypes ts).2 = c) := by
  unfold QueryCriteria.WithEventTypes
  constructor
  · intro h; rw [if_neg (by simpa using h)]
  · rintro rfl; exact ⟨rfl, rfl⟩

theorem c5_statuses (c : QueryCriteria) (ss : List String) :
    (ss ≠ [] → c.WithStatuses ss = (none, { c with statuses := ss })) ∧
    (ss = [] → (c.WithStatuses ss).1.isSome = true ∧ (c.WithStatuses ss).2 = c) := by
  unfold QueryCriteria.WithStatuses
  constructor
  · intro h; rw [if_neg (by simpa using h)]
  · rintro rfl; exact ⟨rfl, rfl⟩

theorem c5_pagination (c : QueryCriteria) (limit offset : Int) :
    ((0 ≤ limit ∧ limit ≤ 1000 ∧ 0 ≤ offset) →
      c.WithPagination limit offset = (none, { c with limit := limit, offset := offset })) ∧
    (¬(0 ≤ limit ∧ limit ≤ 1000 ∧ 0 ≤ offset) →
      (c.WithPagination limit offset).1.isSome = true ∧ (c.WithPagination limit offset).2 = c) := by
  unfold QueryCriteria.WithPagination
  constructor
  · rintro ⟨h1, h2, h3⟩
    rw [if_neg (by push_neg; exact h1), if_neg (by push_neg; exact h2),
        if_neg (by push_neg; exact h3)]
  · intro hv
    split_ifs with a b d
    · exact ⟨rfl, rfl⟩
    · exact ⟨rfl, rfl⟩
    · exact ⟨rfl, rfl⟩
    · exfalso; push_neg at a b d; exact hv ⟨a, b, d⟩

theorem c5_sort (c : QueryCriteria) (ob : String) (asc : Bool) :
    (ob ∈ (["time", "magnitude", "depth", "place"] : List String) →
      c.WithSort ob asc = (none, { c with orderBy := ob, ascending := asc })) ∧
    (ob ∉ (["time", "magnitude", "depth", "place"] : List String) →
      (c.WithSort ob asc).1.isSome = true ∧ (c.WithSort ob asc).2 = c) := by
  unfold QueryCriteria.WithSort
  constructor
  · intro h; rw [if_pos h]
  · intro h; rw [if_neg h]; exact ⟨rfl, rfl⟩

/-- C5: every `With*` setter validates exactly its documented rule, returns
no error and commits the fields when the arguments are valid, and returns
an error leaving the criteria exactly unchanged when they are not. -/
theorem claim_C5_setters (c : QueryCriteria) :
    (∀ mn mx : ℚ,
      ((-1 ≤ mn ∧ mn ≤ 10 ∧ -1 ≤ mx ∧ mx ≤ 10 ∧ mn ≤ mx) →
        c.WithMagnitudeRange mn mx =
          (none, { c with minMagnitude := some mn, maxMagnitude := some mx })) ∧
      (¬(-1 ≤ mn ∧ mn ≤ 10 ∧ -1 ≤ mx ∧ mx ≤ 10 ∧ mn ≤ mx) →
        (c.WithMagnitudeRange mn mx).1.isSome = true ∧ (c.WithMagnitudeRange mn mx).2 = c)) ∧
    (∀ start endT : GoTime,
      (endT.before start = false →
        c.WithTimeRange start endT =
          (none, { c with startTime := some start, endTime := some endT })) ∧
      (endT.before start = true →
        (c.WithTimeRange start endT).1.isSome = true ∧ (c.WithTimeRange start endT).2 = c)) ∧
    (∀ (loc : Location) (r : ℚ),
      ((0 ≤ r ∧ r ≤ 20000) →
        c.WithProximity loc r = (none, { c with location := some loc, radiusKm := some r })) ∧
      (¬(0 ≤ r ∧ r ≤ 20000) →
        (c.WithProximity loc r).1.isSome = true ∧ (c.WithProximity loc r).2 = c)) ∧
    (∀ ts : List EventType,
      (ts ≠ [] → c.WithEventTypes ts = (none, { c with eventTypes := ts })) ∧
      (ts = [] → (c.WithEventTypes ts).1.isSome = true ∧ (c.WithEventTypes ts).2 = c)) ∧
    (∀ ss : List String,
      (ss ≠ [] → c.WithStatuses ss = (none, { c with statuses := ss })) ∧
      (ss = [] → (c.WithStatuses ss).1.isSome = true ∧ (c.WithStatuses ss).2 = c)) ∧
    (∀ limit offset : Int,
      ((0 ≤ limit ∧ limit ≤ 1000 ∧ 0 ≤ offset) →
        c.WithPagination limit offset = (none, { c with limit := limit, offset := offset })) ∧
      (¬(0 ≤ limit ∧ limit ≤ 1000 ∧ 0 ≤ offset) →
        (c.WithPagination limit offset).1.isSome = true ∧ (c.WithPagination limit offset).2 = c)) ∧
    (∀ (ob : String) (asc : Bool),
      (ob ∈ (["time", "magnitude", "depth", "place"] : List String) →
        c.WithSort ob asc = (none, { c with orderBy := ob, ascending := asc })) ∧
      (ob ∉ (["time", "magnitude", "depth", "place"] : List String) →
        (c.WithSort ob asc).1.isSome = true ∧ (c.WithSort ob asc).2 = c)) :=
  ⟨c5_magnitude c, c5_time c, c5_proximity c, c5_types c, c5_statuses c,
   c5_pagination c, c5_sort c⟩

/-- Witness for C5: one valid commit and one rejected-and-unchanged call. -/
theorem claim_C5_witness :
    (NewQueryCriteria.WithMagnitudeRange 2 5 =
      (none, { NewQueryCriteria with minMagnitude := some 2, maxMagnitude := some 5 })) ∧
    ((NewQueryCriteria.WithPagination (-1) 0).1.isSome = true ∧
      (NewQueryCriteria.WithPagination (-1) 0).2 = NewQueryCriteria) :=
  ⟨((claim_C5_setters NewQueryCriteria).1 2 5).1 (by norm_num),
   ((claim_C5_setters NewQueryCriteria).2.2.2.2.2.1 (-1) 0).2 (by decide)⟩
def c1Criteria : QueryCriteria := { NewQueryCriteria with statuses := ["reviewed"] }

def c1Row : EventsRow :=
  { id := "us1000abc1", event_type := "earthquake", magnitude_value := 5,
    magnitude_scale := "mw", latitude := 34, longitude := -118, depth_km := 10,
    event_time := 100, location_name := "LA", status := "reviewed",
    description := "Earthquake detected", url := "https://example.test", updated_at := 0 }

/-- C1 (failing half, evaluated at the failing input): with a status filter
set to `["reviewed"]`, `appendEventFilters` compiles the clause against the
`description` column (`Filt.descIn`), so a stored row whose status is
"reviewed" but whose description is "Earthquake detected" is excluded even
though its status is in the filter set — the compiled query does not
restrict on the status field as the claim states. -/
theorem claim_C1_status_filter_bug :
    c1Row.status ∈ c1Criteria.statuses ∧
    appendEventFilters c1Criteria = [Filt.descIn ["reviewed"]] ∧
    ¬ rowSatisfiesFilters c1Criteria c1Row := by
  have hf : appendEventFilters c1Criteria = [Filt.descIn ["reviewed"]] := rfl
  refine ⟨by decide, hf, ?_⟩
  intro h
  have h2 := h (Filt.descIn ["reviewed"]) (by rw [hf]; exact List.mem_singleton_self _)
  simp only [evalFilt, c1Row] at h2
  exact absurd h2 (by decide)

theorem filter_save_of_mem (n : Int) (e : Event) (store : List EventsRow)
    (hnd : (store.map EventsRow.id).Nodup)
    (hany : store.any (fun r => r.id == e.id) = true) :
    (save n e store).filter (fun r => r.id == e.id) = [rowOfEvent n e] := by
  unfold save
  rw [if_pos hany]
  exact filter_replace_of_nodup n e store hnd hany

/-- C4: saving a second event with the same id as an existing row leaves
exactly one row for that id, carrying all fields of the second event, and
the total row count equals the count after the first save alone; the upsert
is total (the conflict clause never raises a constraint error). -/
theorem claim_C4_upsert (e1 e2 : Event) (store : List EventsRow) (n1 n2 : Int)
    (hid : e1.id = e2.id) (hnd : (store.map EventsRow.id).Nodup) :
    (save n2 e2 (save n1 e1 store)).filter (fun r => r.id == e2.id) = [rowOfEvent n2 e2] ∧
    (save n2 e2 (save n1 e1 store)).length = (save n1 e1 store).length := by
  have hany : (save n1 e1 store).any (fun r => r.id == e2.id) = true := by
    have h := any_save_self n1 e1 store
    rw [hid] at h
    exact h
  have hnd1 : ((save n1 e1 store).map EventsRow.id).Nodup := nodup_ids_save n1 e1 store hnd
  exact ⟨filter_save_of_mem n2 e2 _ hnd1 hany, length_save_of_mem n2 e2 _ hany⟩

def c4Event1 : Event :=
  { id := "us1000abc1", place := "LA", status := "automatic", description := "d1",
    url := "u1", location := ⟨34, -118, 10⟩, magnitude := ⟨5, "mw"⟩,
    eventType := ⟨"earthquake"⟩, time := ⟨100, 0⟩, updated := ⟨100, 0⟩ }

def c4Event2 : Event :=
  { c4Event1 with status := "reviewed", place := "Updated place", magnitude := ⟨13/2, "mw"⟩ }

/-- Witness for C4 at two concrete events sharing an id on an empty store. -/
theorem claim_C4_witness :
    c4Event1.id = c4Event2.id ∧
    (save 2 c4Event2 (save 1 c4Event1 [])).filter (fun r => r.id == c4Event2.id) =
      [rowOfEvent 2 c4Event2] ∧
    (save 2 c4Event2 (save 1 c4Event1 [])).length = (save 1 c4Event1 []).length :=
  ⟨rfl, (claim_C4_upsert c4Event1 c4Event2 [] 1 2 rfl List.nodup_nil).1,
   (claim_C4_upsert c4Event1 c4Event2 [] 1 2 rfl List.nodup_nil).2⟩
deriving instance DecidableEq for Except

instance (l : Location) : Decidable l.WF := by unfold Location.WF; infer_instance

instance (m : Magnitude) : Decidable m.WF := by unfold Magnitude.WF; infer_instance

instance (t : EventType) : Decidable t.WF := by unfold EventType.WF; infer_instance

instance (e : Event) : Decidable e.WF := by unfold Event.WF; infer_instance

/-- C3 (amended): for every constructor-invariant event whose occurrence
time truncated to whole seconds is still non-zero and whose year lies in
the four-digit range 0000-9999 that the RFC3339 layouts can re-parse,
saving and then looking the id up returns an event equal to the original in
every field, with the occurrence time at the whole-second precision the
RFC3339 text preserves (and `updated` freshly set by the read-side
constructor). -/
theorem claim_C3_roundtrip (e : Event) (store : List EventsRow) (n1 : Int) (now : GoTime)
    (hwf : e.WF) (hsec : e.time.sec ≠ 0)
    (hlo : rfc3339MinSec ≤ e.time.sec) (hhi : e.time.sec ≤ rfc3339MaxSec) :
    FindbyID now (save n1 e store) e.id =
      .ok { e with time := ⟨e.time.sec, 0⟩, updated := now } := by
  obtain ⟨hid, htz, hst, hloc, hmag, hty⟩ := hwf
  have hparse : parseTimeFlexible e.time.sec = .ok ⟨e.time.sec, 0⟩ := by
    unfold parseTimeFlexible
    rw [if_pos ⟨hlo, hhi⟩]
  unfold FindbyID
  rw [find?_save]
  unfold reconstructEventFromScanner
  simp only [rowOfEvent, bind, Except.bind, newLocation_of_wf hloc,
    newMagnitude_of_wf hmag, newEventType_of_wf hty, hparse]
  unfold NewEvent
  rw [if_neg hid, if_neg (by simp [GoTime.isZero, hsec]), if_neg hst]
def c3Event : Event :=
  { id := "ev0", place := "P", status := "reviewed", description := "D", url := "U",
    location := ⟨34, -118, 10⟩, magnitude := ⟨5, "mw"⟩, eventType := ⟨"earthquake"⟩,
    time := ⟨0, 1⟩, updated := ⟨7, 0⟩ }

/-- Counterexample to C3 as stated: an event satisfying all constructor
invariants whose occurrence time is one nanosecond past the zero instant.
Its RFC3339 text encodes zero whole seconds, the flexible parser recovers
the zero time, and the read-side `NewEvent` rejects it — `FindbyID` returns
an error instead of the event. -/
theorem claim_C3_counterexample :
    c3Event.WF ∧
    FindbyID ⟨9, 0⟩ (save 5 c3Event []) c3Event.id = .error "event time cannot be zero" :=
  ⟨by decide, by decide⟩

def c3GoodEvent : Event := { c3Event with time := ⟨100, 500⟩ }

/-- Witness for the amended C3 at a concrete event (nanoseconds 500 are
truncated away by the store, seconds survive). -/
theorem claim_C3_witness :
    c3GoodEvent.WF ∧ c3GoodEvent.time.sec ≠ 0 ∧
    rfc3339MinSec ≤ c3GoodEvent.time.sec ∧ c3GoodEvent.time.sec ≤ rfc3339MaxSec ∧
    FindbyID ⟨9, 0⟩ (save 5 c3GoodEvent []) c3GoodEvent.id =
      .ok { c3GoodEvent with time := ⟨100, 0⟩, updated := ⟨9, 0⟩ } :=
  ⟨by decide, by decide, by decide, by decide,
   claim_C3_roundtrip c3GoodEvent [] 5 ⟨9, 0⟩ (by decide) (by decide) (by decide) (by decide)⟩
/-- The great-circle distance dominates 111 km per degree of latitude
difference: the central angle is at least the latitude separation, and
6371 km x (pi/180) exceeds 111 km. -/
theorem gcDist_lat_lower (lat1 lon1 lat2 lon2 : ℝ)
    (h1 : -90 ≤ lat1) (h2 : lat1 ≤ 90) (h3 : -90 ≤ lat2) (h4 : lat2 ≤ 90) :
    111 * |lat2 - lat1| ≤ gcDist lat1 lon1 lat2 lon2 := by
  unfold gcDist
  have hpi : (3.141592 : ℝ) < Real.pi := Real.pi_gt_d6
  have hpi4 : Real.pi ≤ 4 := Real.pi_le_four
  have hpipos : (0 : ℝ) < Real.pi := Real.pi_pos
  set a := lat1 * Real.pi / 180 with ha
  set b := lat2 * Real.pi / 180 with hb
  set d := (lon2 - lon1) * Real.pi / 180 with hd
  have haLo : -(Real.pi / 2) ≤ a := by rw [ha]; nlinarith
  have haHi : a ≤ Real.pi / 2 := by rw [ha]; nlinarith
  have hbLo : -(Real.pi / 2) ≤ b := by rw [hb]; nlinarith
  have hbHi : b ≤ Real.pi / 2 := by rw [hb]; nlinarith
  have hca : 0 ≤ Real.cos a := Real.cos_nonneg_of_mem_Icc ⟨haLo, haHi⟩
  have hcb : 0 ≤ Real.cos b := Real.cos_nonneg_of_mem_Icc ⟨hbLo, hbHi⟩
  set A := Real.sin a * Real.sin b + Real.cos a * Real.cos b * Real.cos d with hA
  have hAle : A ≤ Real.cos (a - b) := by
    rw [hA, Real.cos_sub]
    have hd1 : Real.cos d ≤ 1 := Real.cos_le_one d
    nlinarith [mul_nonneg hca hcb]
  have harc : Real.arccos (Real.cos (a - b)) ≤ Real.arccos A := by
    rw [Real.arccos_eq_pi_div_two_sub_arcsin, Real.arccos_eq_pi_div_two_sub_arcsin]
    have := Real.monotone_arcsin hAle
    linarith
  have habs : |a - b| ≤ Real.pi := by
    rw [abs_le]
    constructor <;> nlinarith
  have heq : Real.arccos (Real.cos (a - b)) = |a - b| := by
    rw [← Real.cos_abs (a - b)]
    exact Real.arccos_cos (abs_nonneg _) habs
  have hge : |a - b| ≤ Real.arccos A := heq ▸ harc
  have habs2 : |a - b| = |lat2 - lat1| * (Real.pi / 180) := by
    rw [ha, hb]
    rw [show lat1 * Real.pi / 180 - lat2 * Real.pi / 180 = (lat1 - lat2) * (Real.pi / 180) by ring,
      abs_mul, abs_sub_comm lat1 lat2, abs_of_pos (show (0:ℝ) < Real.pi / 180 by positivity)]
  have hcoef : 111 ≤ 6371 * (Real.pi / 180) := by nlinarith
  have habsn : 0 ≤ |lat2 - lat1| := abs_nonneg _
  calc 111 * |lat2 - lat1| ≤ (6371 * (Real.pi / 180)) * |lat2 - lat1| := by nlinarith
    _ = 6371 * (|lat2 - lat1| * (Real.pi / 180)) := by ring
    _ = 6371 * |a - b| := by rw [habs2]
    _ ≤ 6371 * Real.arccos A := by nlinarith
/-- C2 (amended): the latitude window of the compiled bounding box never
produces a false negative — an event within true great-circle distance R of
the query point always satisfies the `latitude BETWEEN` clause emitted by
`appendEventFilters`. (The longitude window can exclude in-radius events,
see the antimeridian counterexample.) -/
theorem claim_C2_amended (c : QueryCriteria) (loc : Location) (r : ℚ) (row : EventsRow)
    (hl : c.location = some loc) (hr : c.radiusKm = some r)
    (hq1 : -90 ≤ loc.latitude) (hq2 : loc.latitude ≤ 90)
    (he1 : -90 ≤ row.latitude) (he2 : row.latitude ≤ 90)
    (hrad : (0 : ℚ) ≤ r) (hrad2 : r ≤ 20000)
    (hd : gcDist (loc.latitude : ℝ) (loc.longitude : ℝ) (row.latitude : ℝ) (row.longitude : ℝ)
        ≤ (r : ℝ)) :
    Filt.latBetween ((loc.latitude : ℝ) - deltaLatOf (r : ℝ)) ((loc.latitude : ℝ) + deltaLatOf (r : ℝ))
        ∈ appendEventFilters c ∧
    evalFilt (Filt.latBetween ((loc.latitude : ℝ) - deltaLatOf (r : ℝ))
        ((loc.latitude : ℝ) + deltaLatOf (r : ℝ))) row := by
  constructor
  · simp only [appendEventFilters, hl, hr, List.mem_append]
    right
    exact List.mem_cons_self _ _
  · have hlow := gcDist_lat_lower (loc.latitude : ℝ) (loc.longitude : ℝ)
      (row.latitude : ℝ) (row.longitude : ℝ)
      (by exact_mod_cast hq1) (by exact_mod_cast hq2)
      (by exact_mod_cast he1) (by exact_mod_cast he2)
    have habs : |(row.latitude : ℝ) - (loc.latitude : ℝ)| ≤ (r : ℝ) / 111 := by
      have h111 : (0 : ℝ) < 111 := by norm_num
      have : 111 * |(row.latitude : ℝ) - (loc.latitude : ℝ)| ≤ (r : ℝ) := le_trans hlow hd
      linarith [this]
    rw [abs_le] at habs
    unfold evalFilt deltaLatOf
    constructor <;> linarith [habs.1, habs.2]
def c2Criteria : QueryCriteria :=
  { NewQueryCriteria with location := some ⟨0, -180, 0⟩, radiusKm := some 10 }

def c2Row : EventsRow :=
  { id := "ev180", event_type := "earthquake", magnitude_value := 5,
    magnitude_scale := "mw", latitude := 0, longitude := 180, depth_km := 10,
    event_time := 100, location_name := "antimeridian", status := "reviewed",
    description := "D", url := "U", updated_at := 0 }

/-- Counterexample to C2 as stated: query point (0, -180) with radius
10 km and an event at (0, 180). Both longitudes are valid, the great-circle
distance is 0 (the two points lie on the same meridian), yet the compiled
longitude window [-180 - 10/111, -180 + 10/111] does not contain 180, so
the bounding-box filter excludes the event: a false negative. -/
theorem claim_C2_counterexample :
    gcDist 0 (-180) 0 180 ≤ 10 ∧ ¬ rowSatisfiesFilters c2Criteria c2Row := by
  have hgc : gcDist 0 (-180) 0 180 = 0 := by
    unfold gcDist
    rw [show ((180 : ℝ) - -180) * Real.pi / 180 = 2 * Real.pi by ring]
    simp [Real.cos_two_pi, Real.arccos_one]
  constructor
  · rw [hgc]; norm_num
  · have hf : appendEventFilters c2Criteria =
        [Filt.latBetween ((((0 : ℚ) : ℝ)) - deltaLatOf (((10 : ℚ) : ℝ)))
            ((((0 : ℚ) : ℝ)) + deltaLatOf (((10 : ℚ) : ℝ))),
         Filt.lonBetween ((((-180 : ℚ) : ℝ)) - deltaLonOf (((0 : ℚ) : ℝ)) (((10 : ℚ) : ℝ)))
            ((((-180 : ℚ) : ℝ)) + deltaLonOf (((0 : ℚ) : ℝ)) (((10 : ℚ) : ℝ)))] := rfl
    intro h
    have h2 := h (Filt.lonBetween ((((-180 : ℚ) : ℝ)) - deltaLonOf (((0 : ℚ) : ℝ)) (((10 : ℚ) : ℝ)))
        ((((-180 : ℚ) : ℝ)) + deltaLonOf (((0 : ℚ) : ℝ)) (((10 : ℚ) : ℝ))))
      (by rw [hf]; exact List.mem_cons_of_mem _ (List.mem_singleton_self _))
    unfold evalFilt at h2
    obtain ⟨h3, h4⟩ := h2
    rw [deltaLonOf, cosLatOf] at h4
    rw [show (((0 : ℚ) : ℝ)) * Real.pi / 180 = 0 by push_cast; ring] at h4
    rw [Real.cos_zero] at h4
    rw [if_pos (by norm_num)] at h4
    have : (c2Row.longitude : ℝ) = 180 := by norm_num [c2Row]
    rw [this] at h4
    push_cast at h4
    linarith
def c2wCriteria : QueryCriteria :=
  { NewQueryCriteria with location := some ⟨0, 0, 0⟩, radiusKm := some 10 }

def c2wRow : EventsRow :=
  { id := "ev00", event_type := "earthquake", magnitude_value := 5,
    magnitude_scale := "mw", latitude := 0, longitude := 0, depth_km := 10,
    event_time := 100, location_name := "origin", status := "reviewed",
    description := "D", url := "U", updated_at := 0 }

/-- Witness for the amended C2 at a concrete query and row (both at the
origin, radius 10 km, distance 0). -/
theorem claim_C2_witness :
    Filt.latBetween ((((0 : ℚ) : ℝ)) - deltaLatOf (((10 : ℚ) : ℝ)))
        ((((0 : ℚ) : ℝ)) + deltaLatOf (((10 : ℚ) : ℝ))) ∈ appendEventFilters c2wCriteria ∧
    evalFilt (Filt.latBetween ((((0 : ℚ) : ℝ)) - deltaLatOf (((10 : ℚ) : ℝ)))
        ((((0 : ℚ) : ℝ)) + deltaLatOf (((10 : ℚ) : ℝ)))) c2wRow := by
  have hd : gcDist (((0 : ℚ) : ℝ)) (((0 : ℚ) : ℝ)) (((0 : ℚ) : ℝ)) (((0 : ℚ) : ℝ))
      ≤ (((10 : ℚ) : ℝ)) := by
    have h0 : gcDist 0 0 0 0 = 0 := by
      unfold gcDist
      simp [Real.arccos_one]
    push_cast
    rw [h0]
    norm_num
  have h := claim_C2_amended c2wCriteria ⟨0, 0, 0⟩ 10 c2wRow rfl rfl
    (by norm_num) (by norm_num) (by norm_num [c2wRow]) (by norm_num [c2wRow])
    (by norm_num) (by norm_num) hd
  exact h
end GeoPulse
